import Mathlib

/-!
# Verification of the NeuralDiff multi-level visual hashing core

Shallow embedding of `src/hashing.ts` (class `VisualHasher`) and proofs about
it.  Conventions of the embedding:

* JavaScript numbers are modelled as exact rationals (`ℚ`); pixel samples
  coming from the external image pipeline are unsigned bytes, modelled as `ℕ`.
* The external `sharp` image pipeline (decode / resize / grayscale / blur) and
  the floating-point primitives `Math.cos`, `Math.sqrt`, `Math.PI` are not part
  of this core (the spec treats them as the opaque PixelSource / numeric
  environment).  They are bundled in an `Env` structure, together with the
  length contracts the pipeline guarantees (a `w×h` resize yields `w*h`
  grayscale samples, `w*h*3` RGB byte samples, blur preserves length).
* Wall-clock durations (`Date.now()` deltas) are not modelled; every duration
  field is 0.
* Thrown JavaScript errors become `Except HashError`; the only throw sites in
  the source are the unknown-algorithm default case of `generateHash` and the
  length check of `calculateHammingDistance`.
* Out-of-range JavaScript array reads (which yield `undefined` and then `NaN`
  arithmetic in the source) are modelled with `List.getD _ _ 0`.  Under the
  `Env` length contracts every read performed by the kernels on the algorithms
  and sizes reasoned about below is in range, except inside `haarWavelet` for
  odd sizes, whose coefficient *values* no theorem below depends on (only the
  output length of the wavelet hash is used).
-/

namespace NeuralDiff

/-! ## Data model (`HashResult`, `HashComparison`, configuration) -/

inductive Severity where
  | low
  | medium
  | high
deriving DecidableEq, Repr

/-- The `differences` payload of a `HashComparison`. -/
structure Differences where
  count : ℕ
  positions : List ℕ
  severity : Severity
deriving DecidableEq, Repr

/-- Result shape of `compareHashes`; `differences` is absent (`none`) on the
early-return branch for identical hash strings. -/
structure HashComparison where
  identical : Bool
  similarity : ℚ
  duration : ℕ
  algorithm : String
  differences : Option Differences
deriving DecidableEq, Repr

/-- Metadata values appearing in `HashResult.metadata` (`size` is a number,
the per-algorithm flags are booleans). -/
inductive MetaVal where
  | natVal (n : ℕ)
  | boolVal (b : Bool)
deriving DecidableEq, Repr

/-- Result shape of `generateHash`. -/
structure HashResult where
  hash : String
  algorithm : String
  duration : ℕ
  confidence : ℚ
  metadata : List (String × MetaVal)
deriving DecidableEq, Repr

/-- Error taxonomy: the two throw sites of the hashing module. -/
inductive HashError where
  | unknownAlgorithm (algorithm : String)
  | lengthMismatch
deriving DecidableEq, Repr

/-- Per-tier configuration (levels 1–3 of `MultiLevelHashOptions`).  The
algorithm is kept as a string, as in the source, where dispatch is a string
switch. -/
structure TierConfig where
  algorithm : String
  size : ℕ
  threshold : ℚ
deriving DecidableEq, Repr

/-- Level-4 configuration. -/
structure Level4Config where
  enabled : Bool
  apiEndpoint : Option String
  semanticThreshold : ℚ
deriving DecidableEq, Repr

/-- The merged, effective options seen by one `progressiveCompare` call (the
source's object-spread merging of defaults, instance options and per-call
options happens before the escalation loop and is modelled by quantifying over
this record). -/
structure MultiLevelHashOptions where
  level1 : Option TierConfig
  level2 : Option TierConfig
  level3 : Option TierConfig
  level4 : Option Level4Config
deriving DecidableEq, Repr

/-- The `defaultOptions` of the `VisualHasher` class. -/
def defaultOptions : MultiLevelHashOptions where
  level1 := some ⟨"dhash", 8, 0.95⟩
  level2 := some ⟨"perceptual", 16, 0.90⟩
  level3 := some ⟨"structural", 32, 0.85⟩
  level4 := some ⟨true, none, 0.80⟩

/-- Return shape of `progressiveCompare`. -/
structure ProgressiveOutcome where
  level : ℕ
  result : HashComparison
  shouldContinue : Bool
  totalDuration : ℕ
deriving DecidableEq, Repr

/-! ## Similarity comparator

`calculateHammingDistance`, `compareHashes` (lines 164–208 and 594–606 of
`hashing.ts`). -/

/-- `calculateHammingDistance`: throws when the lengths differ, otherwise
counts positional mismatches. -/
def calculateHammingDistance (hash1 hash2 : String) : Except HashError ℕ :=
  if hash1.length ≠ hash2.length then
    Except.error HashError.lengthMismatch
  else
    Except.ok ((hash1.data.zip hash2.data).countP fun p => p.1 != p.2)

/-- The positions loop of `compareHashes`: every index `i < hash1.length` at
which the two strings hold different characters, in loop (ascending) order. -/
def diffPositions (hash1 hash2 : String) : List ℕ :=
  (List.range hash1.length).filter fun i =>
    hash1.data.getD i ' ' != hash2.data.getD i ' '

/-- `compareHashes`: equal strings short-circuit to an identical result with
no `differences`; otherwise Hamming distance, similarity `1 − d/len`,
severity thresholds `> 0.8` / `> 0.6`, and the mismatching positions. -/
def compareHashes (hash1 hash2 : String) (algorithm : String) :
    Except HashError HashComparison :=
  if hash1 = hash2 then
    Except.ok ⟨true, 1, 0, algorithm, none⟩
  else
    match calculateHammingDistance hash1 hash2 with
    | Except.error e => Except.error e
    | Except.ok hammingDistance =>
      let similarity : ℚ := 1 - (hammingDistance : ℚ) / (hash1.length : ℚ)
      let severity : Severity :=
        if (0.8 : ℚ) < similarity then Severity.low
        else if (0.6 : ℚ) < similarity then Severity.medium
        else Severity.high
      Except.ok ⟨decide (similarity = 1), similarity, 0, algorithm,
        some ⟨hammingDistance, diffPositions hash1 hash2, severity⟩⟩

/-! ## External environment (PixelSource and numeric primitives) -/

/-- The capabilities the hashing core consumes: the external `sharp` pipeline
(resize to `w×h` in grayscale or RGB, Gaussian blur of a raw grayscale
buffer) and the floating-point primitives `Math.cos` / `Math.sqrt` /
`Math.PI`, together with the pipeline's length/byte-range contracts. -/
structure Env (Image : Type) where
  resizeGray : Image → ℕ → ℕ → List ℕ
  resizeRGB : Image → ℕ → ℕ → List ℕ
  blurGray : List ℕ → ℕ → List ℕ
  cosApprox : ℚ → ℚ
  sqrtApprox : ℚ → ℚ
  piApprox : ℚ
  resizeGray_length : ∀ img w h, (resizeGray img w h).length = w * h
  resizeRGB_length : ∀ img w h, (resizeRGB img w h).length = w * h * 3
  resizeRGB_bound : ∀ img w h v, v ∈ resizeRGB img w h → v < 256
  blurGray_length : ∀ pixels size, (blurGray pixels size).length = pixels.length

/-! ## Encoder utilities (`median` and bit-string building) -/

/-- One `'1'`/`'0'` character per boolean, in order (the `hash += bit` loops
of the source). -/
def bitsToString (bits : List Bool) : String :=
  ⟨bits.map fun b => if b then '1' else '0'⟩

/-- Insertion into an ascending list, for `median`'s full sort. -/
def insertAsc (x : ℚ) : List ℚ → List ℚ
  | [] => [x]
  | y :: ys => if x ≤ y then x :: y :: ys else y :: insertAsc x ys

/-- Ascending sort (the source sorts with comparator `(a, b) => a - b`). -/
def sortAsc (values : List ℚ) : List ℚ :=
  values.foldr insertAsc []

/-- `median`: full sort, middle element, mean of the two central elements for
even length.  (For the empty list the source produces `NaN` from reads at
`-1`/`0`; this model returns `0`.  The empty case is reached only via empty
coefficient lists, where the resulting hash is `""` either way because the
bit loop is empty.) -/
def median (values : List ℚ) : ℚ :=
  let sorted := sortAsc values
  let mid := sorted.length / 2
  if sorted.length % 2 == 0 then (sorted.getD (mid - 1) 0 + sorted.getD mid 0) / 2
  else sorted.getD mid 0

/-! ## Transform kernels, pixel level

Each `...Pixels` function is the pure part of the corresponding source method
after the `sharp` resize: it consumes the raw sample buffer exactly as the
source loops do.  The image-level wrappers below feed them through `Env`. -/

/-- `averageHash` after resize: global mean of all samples, bit per sample,
`1` iff strictly above the mean.  Note the loops run over the samples actually
present, whatever their number. -/
def averageHashPixels (pixels : List ℕ) : String :=
  let average : ℚ := ((pixels.sum : ℕ) : ℚ) / ((pixels.length : ℕ) : ℚ)
  bitsToString (pixels.map fun (p : ℕ) => decide (average < (p : ℚ)))

/-- `differenceHash` after resize to `(size+1)×(size+1)`: bit `1` iff the
current sample strictly exceeds its right neighbour. -/
def differenceHashPixels (pixels : List ℕ) (size : ℕ) : String :=
  bitsToString ((List.range size).flatMap fun y => (List.range size).map fun x =>
    decide (pixels.getD (y * (size + 1) + x + 1) 0 < pixels.getD (y * (size + 1) + x) 0))

/-- `simpleDCT`: the naive `O(n⁴)` cosine-transform approximation, with
`Math.cos`/`Math.PI` supplied by the environment.  Entry `u*size + v` is the
double sum of the source's `x`/`y` loops. -/
def simpleDCT {Image : Type} (env : Env Image) (pixels : List ℕ) (size : ℕ) : List ℚ :=
  (List.range size).flatMap fun u => (List.range size).map fun v =>
    ((List.range size).flatMap fun x => (List.range size).map fun y =>
      (pixels.getD (y * size + x) 0 : ℚ) *
        env.cosApprox ((2 * (x : ℚ) + 1) * (u : ℚ) * env.piApprox / (2 * (size : ℚ))) *
        env.cosApprox ((2 * (y : ℚ) + 1) * (v : ℚ) * env.piApprox / (2 * (size : ℚ)))).sum

/-- `perceptualHash` after resize: DCT, the low-frequency
`min(8,size)×min(8,size)` block, bits thresholded strictly against the
median. -/
def perceptualHashPixels {Image : Type} (env : Env Image) (pixels : List ℕ)
    (size : ℕ) : String :=
  let dct := simpleDCT env pixels size
  let m := min 8 size
  let lowFreq := (List.range m).flatMap fun i => (List.range m).map fun j =>
    dct.getD (i * size + j) 0
  let med := median lowFreq
  bitsToString (lowFreq.map fun value => decide (med < value))

/-- `advancedPerceptualHash` after resize: blur (external), DCT, the first
`min(2·size, size²)` coefficients in raster order, bits thresholded strictly
against the mean. -/
def advancedPerceptualHashPixels {Image : Type} (env : Env Image) (pixels : List ℕ)
    (size : ℕ) : String :=
  let blurred := env.blurGray pixels size
  let dct := simpleDCT env blurred size
  let freqCount := min (size * 2) (size * size)
  let lowFreq := (List.range freqCount).map fun i => dct.getD i 0
  let mean := lowFreq.sum / (lowFreq.length : ℚ)
  bitsToString (lowFreq.map fun value => decide (mean < value))

/-- One read-modify-write of the Haar pass: average into `idx1`, difference
into `idx2` (both operands read before either write, as in the source). -/
def haarUpdate (size step : ℕ) (res : List ℚ) (ij : ℕ × ℕ) : List ℚ :=
  let idx1 := ij.1 * size + ij.2
  let idx2 := (ij.1 + step) * size + ij.2
  let a := res.getD idx1 0
  let b := res.getD idx2 0
  (res.set idx1 ((a + b) / 2)).set idx2 ((a - b) / 2)

/-- One pass of `haarWavelet`'s outer `step` loop: `i` ranges over multiples
of `2·step` below `size`, `j` over all columns. -/
def haarPass (size step : ℕ) (res : List ℚ) : List ℚ :=
  ((((List.range size).filter fun i => i % (2 * step) == 0)).flatMap fun i =>
    (List.range size).map fun j => (i, j)).foldl (haarUpdate size step) res

/-- The `step` loop of `haarWavelet` (`step = 1, 2, 4, …` while `step < size`);
`fuel = size` strictly bounds the number of doublings. -/
def haarLoop (size : ℕ) : ℕ → ℕ → List ℚ → List ℚ
  | 0, _, res => res
  | fuel + 1, step, res =>
    if step < size then haarLoop size fuel (step * 2) (haarPass size step res)
    else res

/-- `haarWavelet`: copy the samples, then run the passes. -/
def haarWavelet (pixels : List ℕ) (size : ℕ) : List ℚ :=
  haarLoop size size 1 (pixels.map fun p => (p : ℚ))

/-- `waveletHash` after resize: Haar transform, approximation sub-band
(`i, j < size/2`; the JavaScript loop bound `i < size/2` over integers runs
`⌈size/2⌉` times, i.e. `(size+1)/2` in natural division), bits thresholded
strictly against the median. -/
def waveletHashPixels (pixels : List ℕ) (size : ℕ) : String :=
  let wavelet := haarWavelet pixels size
  let m := (size + 1) / 2
  let approx := (List.range m).flatMap fun i => (List.range m).map fun j =>
    wavelet.getD (i * size + j) 0
  let threshold := median approx
  bitsToString (approx.map fun value => decide (threshold < value))

/-- Mean of the `4×4` block at block coordinates `(yb, xb)` of a `4·size`-wide
grid (the inner `blockSum` loops of `blockHash`, divided by 16). -/
def blockMean (pixels : List ℕ) (size yb xb : ℕ) : ℚ :=
  ((((List.range 4).flatMap fun y => (List.range 4).map fun x =>
    pixels.getD ((yb * 4 + y) * (size * 4) + (xb * 4 + x)) 0).sum : ℕ) : ℚ) / 16

/-- `blockHash` after resize to `(4·size)×(4·size)`: one bit per block, `1`
iff the block mean strictly exceeds the constant `128`. -/
def blockHashPixels (pixels : List ℕ) (size : ℕ) : String :=
  bitsToString ((List.range size).flatMap fun yb => (List.range size).map fun xb =>
    decide ((128 : ℚ) < blockMean pixels size yb xb))

/-- `calculateGradients`: Euclidean magnitude (via the environment's
`Math.sqrt`) of central differences at each interior sample of a `size×size`
grid, in row-major order. -/
def calculateGradients {Image : Type} (env : Env Image) (pixels : List ℕ)
    (size : ℕ) : List ℚ :=
  (List.range (size - 2)).flatMap fun y0 => (List.range (size - 2)).map fun x0 =>
    let y := y0 + 1
    let x := x0 + 1
    let gx : ℚ := (pixels.getD (y * size + x + 1) 0 : ℚ) - (pixels.getD (y * size + x - 1) 0 : ℚ)
    let gy : ℚ := (pixels.getD ((y + 1) * size + x) 0 : ℚ) - (pixels.getD ((y - 1) * size + x) 0 : ℚ)
    env.sqrtApprox (gx * gx + gy * gy)

/-- `structuralHash` after resize: gradient magnitudes, bits thresholded
strictly against the median. -/
def structuralHashPixels {Image : Type} (env : Env Image) (pixels : List ℕ)
    (size : ℕ) : String :=
  let gradients := calculateGradients env pixels size
  let threshold := median gradients
  bitsToString (gradients.map fun gradient => decide (threshold < gradient))

/-- `gradientHash` after resize: textually the same computation as
`structuralHash` (the source duplicates the body). -/
def gradientHashPixels {Image : Type} (env : Env Image) (pixels : List ℕ)
    (size : ℕ) : String :=
  let gradients := calculateGradients env pixels size
  let threshold := median gradients
  bitsToString (gradients.map fun gradient => decide (threshold < gradient))

/-- Frequency of byte value `v` in channel `c` (`c ∈ {0,1,2}`) of an
interleaved RGB buffer: the `histogram[pixels[i]]++` loop with stride 3. -/
def channelHist (pixels : List ℕ) (c v : ℕ) : ℕ :=
  ((List.range pixels.length).filter fun i =>
    i % 3 == c && pixels.getD i 0 == v).length

/-- Histogram mean of channel `c`: `Σ v·hist(v) / Σ hist(v)` over the 256
bins (all samples are `< 256` by the `Env` byte contract, so the bins cover
every sample). -/
def channelHistMean (pixels : List ℕ) (c : ℕ) : ℚ :=
  (((List.range 256).map fun (v : ℕ) => (v : ℚ) * (channelHist pixels c v : ℚ)).sum) /
    (((List.range 256).map fun (v : ℕ) => (channelHist pixels c v : ℚ)).sum)

/-- `colorHistogramHash` after (non-grayscale) resize: one bit per RGB
channel, `1` iff the histogram mean strictly exceeds the constant `128`. -/
def colorHistogramHashPixels (pixels : List ℕ) : String :=
  bitsToString ([0, 1, 2].map fun c => decide ((128 : ℚ) < channelHistMean pixels c))

/-! ## Transform kernels, image level -/

def averageHash {Image : Type} (env : Env Image) (img : Image) (size : ℕ) : String :=
  averageHashPixels (env.resizeGray img size size)

def differenceHash {Image : Type} (env : Env Image) (img : Image) (size : ℕ) : String :=
  differenceHashPixels (env.resizeGray img (size + 1) (size + 1)) size

def perceptualHash {Image : Type} (env : Env Image) (img : Image) (size : ℕ) : String :=
  perceptualHashPixels env (env.resizeGray img size size) size

def advancedPerceptualHash {Image : Type} (env : Env Image) (img : Image) (size : ℕ) : String :=
  advancedPerceptualHashPixels env (env.resizeGray img size size) size

def waveletHash {Image : Type} (env : Env Image) (img : Image) (size : ℕ) : String :=
  waveletHashPixels (env.resizeGray img size size) size

def blockHash {Image : Type} (env : Env Image) (img : Image) (size : ℕ) : String :=
  blockHashPixels (env.resizeGray img (size * 4) (size * 4)) size

def structuralHash {Image : Type} (env : Env Image) (img : Image) (size : ℕ) : String :=
  structuralHashPixels env (env.resizeGray img size size) size

def colorHistogramHash {Image : Type} (env : Env Image) (img : Image) (size : ℕ) : String :=
  colorHistogramHashPixels (env.resizeRGB img size size)

def gradientHash {Image : Type} (env : Env Image) (img : Image) (size : ℕ) : String :=
  gradientHashPixels env (env.resizeGray img size size) size

/-! ## `generateHash`: string dispatch, confidence and metadata -/

/-- `generateHash` (lines 91–159): dispatch on the algorithm name, fixed
per-algorithm confidence, metadata `{size, …}`; the default case throws
`Unknown hashing algorithm`. -/
def generateHash {Image : Type} (env : Env Image) (img : Image)
    (algorithm : String) (size : ℕ) : Except HashError HashResult :=
  if algorithm = "average" then
    Except.ok ⟨averageHash env img size, algorithm, 0, 1, [("size", MetaVal.natVal size)]⟩
  else if algorithm = "dhash" then
    Except.ok ⟨differenceHash env img size, algorithm, 0, 1, [("size", MetaVal.natVal size)]⟩
  else if algorithm = "phash" then
    Except.ok ⟨perceptualHash env img size, algorithm, 0, 1, [("size", MetaVal.natVal size)]⟩
  else if algorithm = "perceptual" then
    Except.ok ⟨advancedPerceptualHash env img size, algorithm, 0, 0.95,
      [("size", MetaVal.natVal size)]⟩
  else if algorithm = "wavelet" then
    Except.ok ⟨waveletHash env img size, algorithm, 0, 0.92, [("size", MetaVal.natVal size)]⟩
  else if algorithm = "blockhash" then
    Except.ok ⟨blockHash env img size, algorithm, 0, 0.90, [("size", MetaVal.natVal size)]⟩
  else if algorithm = "structural" then
    Except.ok ⟨structuralHash env img size, algorithm, 0, 0.88,
      [("size", MetaVal.natVal size), ("structuralFeatures", MetaVal.boolVal true)]⟩
  else if algorithm = "colorhistogram" then
    Except.ok ⟨colorHistogramHash env img size, algorithm, 0, 0.85,
      [("size", MetaVal.natVal size), ("colorAnalysis", MetaVal.boolVal true)]⟩
  else if algorithm = "gradient" then
    Except.ok ⟨gradientHash env img size, algorithm, 0, 0.87,
      [("size", MetaVal.natVal size), ("gradientAnalysis", MetaVal.boolVal true)]⟩
  else Except.error (HashError.unknownAlgorithm algorithm)

/-- The algorithm names recognized by `generateHash`'s dispatch. -/
def validAlgorithms : List String :=
  ["average", "dhash", "phash", "perceptual", "wavelet", "blockhash",
   "structural", "colorhistogram", "gradient"]

/-! ## Progressive escalation controller

`progressiveCompare` (lines 213–311).  The three tier blocks of the source
share one shape — hash both images with the tier's algorithm/size, compare,
early-return when `similarity >= threshold` — factored here as `runTier` and
one `tierKStep` definition per block.  `progressiveCompareTraced` is the same
control flow instrumented with the list of tiers whose kernels actually ran
(the call-count instrumentation the spec describes for tests). -/

/-- One tier block: `generateHash` on both images, then `compareHashes`
(errors propagate, as thrown errors do through the `await`s of the source). -/
def runTier {Image : Type} (env : Env Image) (img1 img2 : Image)
    (t : TierConfig) : Except HashError HashComparison :=
  match generateHash env img1 t.algorithm t.size with
  | Except.error e => Except.error e
  | Except.ok h1 =>
    match generateHash env img2 t.algorithm t.size with
    | Except.error e => Except.error e
    | Except.ok h2 => compareHashes h1.hash h2.hash t.algorithm

/-- The level-4 placeholder result (`algorithm: 'semantic'`, all-different,
severity high). -/
def semanticPlaceholder : HashComparison :=
  ⟨false, 0, 0, "semantic", some ⟨0, [], Severity.high⟩⟩

/-- The final fallback outcome when level 4 is absent or disabled
(`level: 3`, `algorithm: 'progressive'`, `shouldContinue: false`). -/
def progressiveFallback : ProgressiveOutcome :=
  ⟨3, ⟨false, 0, 0, "progressive", some ⟨0, [], Severity.high⟩⟩, false, 0⟩

/-- The level-4 block: `opts.level4?.enabled` selects the semantic hand-off
outcome (`shouldContinue: true`); otherwise the fallback return. -/
def tier4Step (opts : MultiLevelHashOptions) : ProgressiveOutcome :=
  match opts.level4 with
  | some l4 => if l4.enabled then ⟨4, semanticPlaceholder, true, 0⟩ else progressiveFallback
  | none => progressiveFallback

/-- The level-3 block. -/
def tier3Step {Image : Type} (env : Env Image) (img1 img2 : Image)
    (opts : MultiLevelHashOptions) : Except HashError ProgressiveOutcome :=
  match opts.level3 with
  | none => Except.ok (tier4Step opts)
  | some t =>
    match runTier env img1 img2 t with
    | Except.error e => Except.error e
    | Except.ok result =>
      if t.threshold ≤ result.similarity then Except.ok ⟨3, result, false, 0⟩
      else Except.ok (tier4Step opts)

/-- The level-2 block. -/
def tier2Step {Image : Type} (env : Env Image) (img1 img2 : Image)
    (opts : MultiLevelHashOptions) : Except HashError ProgressiveOutcome :=
  match opts.level2 with
  | none => tier3Step env img1 img2 opts
  | some t =>
    match runTier env img1 img2 t with
    | Except.error e => Except.error e
    | Except.ok result =>
      if t.threshold ≤ result.similarity then Except.ok ⟨2, result, false, 0⟩
      else tier3Step env img1 img2 opts

/-- `progressiveCompare`: the level-1 block followed by the later tiers. -/
def progressiveCompare {Image : Type} (env : Env Image) (img1 img2 : Image)
    (opts : MultiLevelHashOptions) : Except HashError ProgressiveOutcome :=
  match opts.level1 with
  | none => tier2Step env img1 img2 opts
  | some t =>
    match runTier env img1 img2 t with
    | Except.error e => Except.error e
    | Except.ok result =>
      if t.threshold ≤ result.similarity then Except.ok ⟨1, result, false, 0⟩
      else tier2Step env img1 img2 opts

/-- Traced level-3 block: appends `3` to the trace exactly when the tier's
kernels run. -/
def tier3StepTraced {Image : Type} (env : Env Image) (img1 img2 : Image)
    (opts : MultiLevelHashOptions) (tr : List ℕ) :
    Except HashError ProgressiveOutcome × List ℕ :=
  match opts.level3 with
  | none => (Except.ok (tier4Step opts), tr)
  | some t =>
    match runTier env img1 img2 t with
    | Except.error e => (Except.error e, tr ++ [3])
    | Except.ok result =>
      if t.threshold ≤ result.similarity then (Except.ok ⟨3, result, false, 0⟩, tr ++ [3])
      else (Except.ok (tier4Step opts), tr ++ [3])

/-- Traced level-2 block. -/
def tier2StepTraced {Image : Type} (env : Env Image) (img1 img2 : Image)
    (opts : MultiLevelHashOptions) (tr : List ℕ) :
    Except HashError ProgressiveOutcome × List ℕ :=
  match opts.level2 with
  | none => tier3StepTraced env img1 img2 opts tr
  | some t =>
    match runTier env img1 img2 t with
    | Except.error e => (Except.error e, tr ++ [2])
    | Except.ok result =>
      if t.threshold ≤ result.similarity then (Except.ok ⟨2, result, false, 0⟩, tr ++ [2])
      else tier3StepTraced env img1 img2 opts (tr ++ [2])

/-- `progressiveCompare` instrumented with the list of tiers whose transform
kernels and encoder were executed, in execution order. -/
def progressiveCompareTraced {Image : Type} (env : Env Image) (img1 img2 : Image)
    (opts : MultiLevelHashOptions) :
    Except HashError ProgressiveOutcome × List ℕ :=
  match opts.level1 with
  | none => tier2StepTraced env img1 img2 opts []
  | some t =>
    match runTier env img1 img2 t with
    | Except.error e => (Except.error e, [1])
    | Except.ok result =>
      if t.threshold ≤ result.similarity then (Except.ok ⟨1, result, false, 0⟩, [1])
      else tier2StepTraced env img1 img2 opts [1]

/-- A configured tier that runs but does not clear its threshold (vacuously
true for an unconfigured tier). -/
def tierMiss {Image : Type} (env : Env Image) (img1 img2 : Image)
    (o : Option TierConfig) : Prop :=
  ∀ t, o = some t → ∃ r, runTier env img1 img2 t = Except.ok r ∧ r.similarity < t.threshold

/-- Trace contribution of a tier that is reached: `[k]` when configured,
nothing otherwise. -/
def tierTraceOf : Option TierConfig → ℕ → List ℕ
  | none, _ => []
  | some _, k => [k]

/-! ## Decidable equality for `Except`, and a concrete environment

The concrete environment is used only to evaluate the embedding on explicit
inputs (witnesses and counterexamples); it is one legitimate instance of the
external-pipeline contract, with two images (`false` and `true`) whose
grayscale resizes differ in the last sample. -/

instance {ε α : Type} [DecidableEq ε] [DecidableEq α] : DecidableEq (Except ε α) := fun x y =>
  match x, y with
  | Except.ok a, Except.ok b => if h : a = b then isTrue (by rw [h]) else isFalse (by simp [h])
  | Except.error a, Except.error b =>
    if h : a = b then isTrue (by rw [h]) else isFalse (by simp [h])
  | Except.ok _, Except.error _ => isFalse (by simp)
  | Except.error _, Except.ok _ => isFalse (by simp)

/-- A concrete `Env` over two images: image `false` resizes to an all-zero
grid, image `true` to a grid whose last sample is `4`; blur is the identity,
`cos` is constantly `1`, `sqrt` the identity, `π ≈ 3`. -/
def testEnv : Env Bool where
  resizeGray := fun img w h =>
    if img then (List.replicate (w * h) 0).set (w * h - 1) 4 else List.replicate (w * h) 0
  resizeRGB := fun _ w h => List.replicate (w * h * 3) 0
  blurGray := fun pixels _ => pixels
  cosApprox := fun _ => 1
  sqrtApprox := fun q => q
  piApprox := 3
  resizeGray_length := by intro img w h; cases img <;> simp
  resizeRGB_length := by intro img w h; simp
  resizeRGB_bound := by
    intro img w h v hv
    simp only [List.eq_of_mem_replicate hv]
    omega
  blurGray_length := by intro pixels size; rfl

/-! ## Hash-length lemmas -/

/-- Length of a row-major double loop. -/
theorem length_grid {α : Type} (n m : ℕ) (f : ℕ → ℕ → α) :
    ((List.range n).flatMap fun i => (List.range m).map fun j => f i j).length = n * m := by
  simp [List.length_flatMap, Function.comp_def, List.map_const']

theorem bitsToString_length (bits : List Bool) :
    (bitsToString bits).length = bits.length := by
  simp [bitsToString, String.length]

/-- The bit-string length each algorithm produces for sampling size `n`
(fixed by algorithm and size alone). -/
def hashLength (algorithm : String) (n : ℕ) : ℕ :=
  if algorithm = "average" then n * n
  else if algorithm = "dhash" then n * n
  else if algorithm = "phash" then min 8 n * min 8 n
  else if algorithm = "perceptual" then min (n * 2) (n * n)
  else if algorithm = "wavelet" then ((n + 1) / 2) * ((n + 1) / 2)
  else if algorithm = "blockhash" then n * n
  else if algorithm = "structural" then (n - 2) * (n - 2)
  else if algorithm = "colorhistogram" then 3
  else if algorithm = "gradient" then (n - 2) * (n - 2)
  else 0

theorem averageHashPixels_length (pixels : List ℕ) :
    (averageHashPixels pixels).length = pixels.length := by
  unfold averageHashPixels
  rw [bitsToString_length, List.length_map]

theorem differenceHashPixels_length (pixels : List ℕ) (n : ℕ) :
    (differenceHashPixels pixels n).length = n * n := by
  unfold differenceHashPixels
  rw [bitsToString_length]
  exact length_grid n n _

theorem perceptualHashPixels_length {Image : Type} (env : Env Image)
    (pixels : List ℕ) (n : ℕ) :
    (perceptualHashPixels env pixels n).length = min 8 n * min 8 n := by
  unfold perceptualHashPixels
  rw [bitsToString_length, List.length_map]
  exact length_grid (min 8 n) (min 8 n) _

theorem advancedPerceptualHashPixels_length {Image : Type} (env : Env Image)
    (pixels : List ℕ) (n : ℕ) :
    (advancedPerceptualHashPixels env pixels n).length = min (n * 2) (n * n) := by
  unfold advancedPerceptualHashPixels
  rw [bitsToString_length, List.length_map, List.length_map, List.length_range]

theorem waveletHashPixels_length (pixels : List ℕ) (n : ℕ) :
    (waveletHashPixels pixels n).length = ((n + 1) / 2) * ((n + 1) / 2) := by
  unfold waveletHashPixels
  rw [bitsToString_length, List.length_map]
  exact length_grid ((n + 1) / 2) ((n + 1) / 2) _

theorem blockHashPixels_length (pixels : List ℕ) (n : ℕ) :
    (blockHashPixels pixels n).length = n * n := by
  unfold blockHashPixels
  rw [bitsToString_length]
  exact length_grid n n _

theorem calculateGradients_length {Image : Type} (env : Env Image)
    (pixels : List ℕ) (n : ℕ) :
    (calculateGradients env pixels n).length = (n - 2) * (n - 2) := by
  unfold calculateGradients
  exact length_grid (n - 2) (n - 2) _

theorem structuralHashPixels_length {Image : Type} (env : Env Image)
    (pixels : List ℕ) (n : ℕ) :
    (structuralHashPixels env pixels n).length = (n - 2) * (n - 2) := by
  unfold structuralHashPixels
  rw [bitsToString_length, List.length_map, calculateGradients_length]

theorem gradientHashPixels_length {Image : Type} (env : Env Image)
    (pixels : List ℕ) (n : ℕ) :
    (gradientHashPixels env pixels n).length = (n - 2) * (n - 2) := by
  unfold gradientHashPixels
  rw [bitsToString_length, List.length_map, calculateGradients_length]

theorem colorHistogramHashPixels_length (pixels : List ℕ) :
    (colorHistogramHashPixels pixels).length = 3 := by
  unfold colorHistogramHashPixels
  rw [bitsToString_length, List.length_map]
  rfl

/-- For every recognized algorithm, `generateHash` succeeds and its bit-string
length is `hashLength algorithm n`, independent of the image. -/
theorem generateHash_length {Image : Type} (env : Env Image) (img : Image)
    (algorithm : String) (n : ℕ) (h : algorithm ∈ validAlgorithms) :
    ∃ r, generateHash env img algorithm n = Except.ok r ∧
      r.hash.length = hashLength algorithm n := by
  simp only [validAlgorithms, List.mem_cons, List.not_mem_nil, or_false] at h
  rcases h with h | h | h | h | h | h | h | h | h <;> subst h
  · refine ⟨_, rfl, ?_⟩
    show (averageHash env img n).length = n * n
    unfold averageHash
    rw [averageHashPixels_length, env.resizeGray_length]
  · refine ⟨_, rfl, ?_⟩
    show (differenceHash env img n).length = n * n
    unfold differenceHash
    rw [differenceHashPixels_length]
  · refine ⟨_, rfl, ?_⟩
    show (perceptualHash env img n).length = min 8 n * min 8 n
    unfold perceptualHash
    rw [perceptualHashPixels_length]
  · refine ⟨_, rfl, ?_⟩
    show (advancedPerceptualHash env img n).length = min (n * 2) (n * n)
    unfold advancedPerceptualHash
    rw [advancedPerceptualHashPixels_length]
  · refine ⟨_, rfl, ?_⟩
    show (waveletHash env img n).length = ((n + 1) / 2) * ((n + 1) / 2)
    unfold waveletHash
    rw [waveletHashPixels_length]
  · refine ⟨_, rfl, ?_⟩
    show (blockHash env img n).length = n * n
    unfold blockHash
    rw [blockHashPixels_length]
  · refine ⟨_, rfl, ?_⟩
    show (structuralHash env img n).length = (n - 2) * (n - 2)
    unfold structuralHash
    rw [structuralHashPixels_length]
  · refine ⟨_, rfl, ?_⟩
    show (colorHistogramHash env img n).length = 3
    unfold colorHistogramHash
    rw [colorHistogramHashPixels_length]
  · refine ⟨_, rfl, ?_⟩
    show (gradientHash env img n).length = (n - 2) * (n - 2)
    unfold gradientHash
    rw [gradientHashPixels_length]

/-! ## Comparator lemmas and claims C2–C4 -/

/-- The zip-based mismatch count of `calculateHammingDistance` equals the
number of indices below the (common) length at which the two character lists
differ. -/
theorem countP_zip_mismatch (l1 l2 : List Char) (h : l1.length = l2.length) :
    ((l1.zip l2).countP fun p => p.1 != p.2) =
      (List.range l1.length).countP fun i => l1.getD i ' ' != l2.getD i ' ' := by
  induction l1 generalizing l2 with
  | nil =>
    cases l2 with
    | nil => simp
    | cons b bs => simp at h
  | cons a as ih =>
    cases l2 with
    | nil => simp at h
    | cons b bs =>
      simp only [List.length_cons] at h
      have h' : as.length = bs.length := by omega
      rw [List.zip_cons_cons, List.countP_cons, List.length_cons,
        List.range_succ_eq_map, List.countP_cons, List.countP_map]
      simp only [List.getD_cons_zero, List.getD_cons_succ, Function.comp_def]
      rw [ih bs h']

/-- Unfolding of `compareHashes` on unequal strings of equal length. -/
theorem compareHashes_ok (hash1 hash2 : String) (algorithm : String)
    (hlen : hash1.length = hash2.length) (hne : hash1 ≠ hash2) :
    compareHashes hash1 hash2 algorithm =
      Except.ok ⟨decide ((1 : ℚ) - (((hash1.data.zip hash2.data).countP fun p => p.1 != p.2 : ℕ) : ℚ) / (hash1.length : ℚ) = 1),
        1 - (((hash1.data.zip hash2.data).countP fun p => p.1 != p.2 : ℕ) : ℚ) / (hash1.length : ℚ),
        0, algorithm,
        some ⟨(hash1.data.zip hash2.data).countP fun p => p.1 != p.2,
          diffPositions hash1 hash2,
          if (0.8 : ℚ) < 1 - (((hash1.data.zip hash2.data).countP fun p => p.1 != p.2 : ℕ) : ℚ) / (hash1.length : ℚ) then Severity.low
          else if (0.6 : ℚ) < 1 - (((hash1.data.zip hash2.data).countP fun p => p.1 != p.2 : ℕ) : ℚ) / (hash1.length : ℚ) then Severity.medium
          else Severity.high⟩⟩ := by
  have hcd : calculateHammingDistance hash1 hash2 =
      Except.ok ((hash1.data.zip hash2.data).countP fun p => p.1 != p.2) := by
    unfold calculateHammingDistance
    rw [if_neg (not_not_intro hlen)]
  unfold compareHashes
  rw [if_neg hne, hcd]

/-- C2 (amended): for every pair of *distinct* equal-length bit-strings,
`compareHashes` reports a `differences` payload whose `count` is the number of
mismatching positions, whose `similarity` is `1 − count/length`, and whose
`positions` list contains exactly the mismatching indices, in strictly
ascending order. -/
theorem compareHashes_difference_report (hash1 hash2 : String) (algorithm : String)
    (hlen : hash1.length = hash2.length) (hne : hash1 ≠ hash2) :
    ∃ c d, compareHashes hash1 hash2 algorithm = Except.ok c ∧
      c.differences = some d ∧
      d.count = ((List.range hash1.length).countP fun i =>
        hash1.data.getD i ' ' != hash2.data.getD i ' ') ∧
      c.similarity = 1 - (d.count : ℚ) / (hash1.length : ℚ) ∧
      (∀ i, i ∈ d.positions ↔ i < hash1.length ∧
        hash1.data.getD i ' ' ≠ hash2.data.getD i ' ') ∧
      d.positions.Pairwise (· < ·) ∧
      d.count = d.positions.length := by
  have hdata : hash1.data.length = hash2.data.length := hlen
  refine ⟨_, _, compareHashes_ok hash1 hash2 algorithm hlen hne, rfl, ?_, rfl, ?_, ?_, ?_⟩
  · exact countP_zip_mismatch hash1.data hash2.data hdata
  · intro i
    simp [diffPositions, List.mem_filter, List.mem_range]
  · exact (List.pairwise_lt_range _).filter _
  · rw [countP_zip_mismatch hash1.data hash2.data hdata, List.countP_eq_length_filter]
    rfl

/-- C2 (counterexample): for the equal pair of length-1 bit-strings `"0"`,
`compareHashes` takes the identical-strings early return and yields *no*
`differences` payload at all — no `differingBitCount` and no
`differingBitPositions` are returned, contradicting the claim's universal
quantification over every pair of equal-length bit-strings. -/
theorem compareHashes_identical_pair_no_report :
    compareHashes ("0") ("0") ("average") =
      Except.ok ⟨true, 1, 0, ("average"), none⟩ := by
  rw [compareHashes, if_pos rfl]

/-- C2 (witness): the amended report theorem applied to the spec's worked
length-16 example, plus the two worked examples evaluated in full
(`differingBitCount = 1`, `similarity = 15/16 = 0.9375`, severity low;
`differingBitCount = 8`, `similarity = 1/2`, severity high, positions
`0,2,…,14`). -/
theorem compareHashes_difference_report_witness :
    (∃ c d, compareHashes ("1010101010101010") ("1010101010101011") ("dhash") = Except.ok c ∧
      c.differences = some d ∧
      d.count = ((List.range (String.length ("1010101010101010"))).countP fun i =>
        (String.data ("1010101010101010")).getD i ' ' != (String.data ("1010101010101011")).getD i ' ') ∧
      c.similarity = 1 - (d.count : ℚ) / ((String.length ("1010101010101010")) : ℚ) ∧
      (∀ i, i ∈ d.positions ↔ i < String.length ("1010101010101010") ∧
        (String.data ("1010101010101010")).getD i ' ' ≠ (String.data ("1010101010101011")).getD i ' ') ∧
      d.positions.Pairwise (· < ·) ∧
      d.count = d.positions.length) ∧
    compareHashes ("1010101010101010") ("1010101010101011") ("dhash") =
      Except.ok ⟨false, 15/16, 0, ("dhash"), some ⟨1, [15], Severity.low⟩⟩ ∧
    compareHashes ("1010101010101010") ("0000000000000000") ("dhash") =
      Except.ok ⟨false, 1/2, 0, ("dhash"), some ⟨8, [0, 2, 4, 6, 8, 10, 12, 14], Severity.high⟩⟩ := by
  refine ⟨compareHashes_difference_report _ _ _ (by decide) (by decide), ?_, ?_⟩
  · have h1 : calculateHammingDistance ("1010101010101010") ("1010101010101011") =
        Except.ok 1 := by decide
    rw [compareHashes,
      if_neg (by decide : ¬ (("1010101010101010" : String) = "1010101010101011")), h1]
    have hp : diffPositions ("1010101010101010") ("1010101010101011") = [15] := by decide
    have hl : ((("1010101010101010" : String).length : ℕ) : ℚ) = 16 := by
      norm_num [String.length]
    simp only [hp, hl]
    norm_num
  · have h8 : calculateHammingDistance ("1010101010101010") ("0000000000000000") =
        Except.ok 8 := by decide
    rw [compareHashes,
      if_neg (by decide : ¬ (("1010101010101010" : String) = "0000000000000000")), h8]
    have hp : diffPositions ("1010101010101010") ("0000000000000000") =
        [0, 2, 4, 6, 8, 10, 12, 14] := by decide
    have hl : ((("1010101010101010" : String).length : ℕ) : ℚ) = 16 := by
      norm_num [String.length]
    simp only [hp, hl]
    norm_num

/-- C3: whenever `compareHashes` returns a `differences` payload, its severity
is `low` exactly when `similarity > 0.8`, `medium` exactly when
`0.6 < similarity ≤ 0.8`, and `high` exactly when `similarity ≤ 0.6` — the
boundaries `0.8` and `0.6` themselves classify as `medium` and `high`. -/
theorem compareHashes_severity_thresholds (hash1 hash2 : String) (algorithm : String)
    (c : HashComparison) (d : Differences)
    (hc : compareHashes hash1 hash2 algorithm = Except.ok c)
    (hd : c.differences = some d) :
    (d.severity = Severity.low ↔ (0.8 : ℚ) < c.similarity) ∧
    (d.severity = Severity.medium ↔ ((0.6 : ℚ) < c.similarity ∧ c.similarity ≤ (0.8 : ℚ))) ∧
    (d.severity = Severity.high ↔ c.similarity ≤ (0.6 : ℚ)) := by
  unfold compareHashes at hc
  by_cases heq : hash1 = hash2
  · rw [if_pos heq] at hc
    injection hc with hc
    rw [← hc] at hd
    simp at hd
  · rw [if_neg heq] at hc
    cases hcd : calculateHammingDistance hash1 hash2 with
    | error e => rw [hcd] at hc; simp at hc
    | ok dist =>
      rw [hcd] at hc
      injection hc with hc
      rw [← hc] at hd ⊢
      injection hd with hd
      rw [← hd]
      simp only []
      split_ifs with h1 h2
      · exact ⟨iff_of_true rfl h1,
          iff_of_false (by decide) (fun hh => absurd h1 (not_lt.mpr hh.2)),
          iff_of_false (by decide) (fun hh => absurd h1 (not_lt.mpr (hh.trans (by norm_num))))⟩
      · exact ⟨iff_of_false (by decide) h1,
          iff_of_true rfl ⟨h2, not_lt.mp h1⟩,
          iff_of_false (by decide) (fun hh => absurd h2 (not_lt.mpr hh))⟩
      · exact ⟨iff_of_false (by decide) h1,
          iff_of_false (by decide) (fun hh => absurd hh.1 h2),
          iff_of_true rfl (not_lt.mp h2)⟩

/-- C3 (witness): a pair with similarity exactly `0.8` (`"00000"` vs
`"00001"`, one mismatch in five bits) classifies `medium`, and a pair with
similarity exactly `0.6` (`"00000"` vs `"00011"`) classifies `high`; the
threshold theorem is applied at the first pair. -/
theorem compareHashes_severity_thresholds_witness :
    compareHashes ("00000") ("00001") ("dhash") =
      Except.ok ⟨false, 4/5, 0, ("dhash"), some ⟨1, [4], Severity.medium⟩⟩ ∧
    compareHashes ("00000") ("00011") ("dhash") =
      Except.ok ⟨false, 3/5, 0, ("dhash"), some ⟨2, [3, 4], Severity.high⟩⟩ ∧
    ((Differences.mk 1 [4] Severity.medium).severity = Severity.low ↔
      (0.8 : ℚ) < (HashComparison.mk false (4/5) 0 ("dhash")
        (some ⟨1, [4], Severity.medium⟩)).similarity) ∧
    ((Differences.mk 1 [4] Severity.medium).severity = Severity.medium ↔
      ((0.6 : ℚ) < (HashComparison.mk false (4/5) 0 ("dhash")
        (some ⟨1, [4], Severity.medium⟩)).similarity ∧
       (HashComparison.mk false (4/5) 0 ("dhash")
        (some ⟨1, [4], Severity.medium⟩)).similarity ≤ (0.8 : ℚ))) ∧
    ((Differences.mk 1 [4] Severity.medium).severity = Severity.high ↔
      (HashComparison.mk false (4/5) 0 ("dhash")
        (some ⟨1, [4], Severity.medium⟩)).similarity ≤ (0.6 : ℚ)) := by
  have hcmp1 : compareHashes ("00000") ("00001") ("dhash") =
      Except.ok ⟨false, 4/5, 0, ("dhash"), some ⟨1, [4], Severity.medium⟩⟩ := by
    have h1 : calculateHammingDistance ("00000") ("00001") = Except.ok 1 := by decide
    rw [compareHashes, if_neg (by decide : ¬ (("00000" : String) = "00001")), h1]
    have hp : diffPositions ("00000") ("00001") = [4] := by decide
    have hl : ((("00000" : String).length : ℕ) : ℚ) = 5 := by norm_num [String.length]
    simp only [hp, hl]
    norm_num
  have hcmp2 : compareHashes ("00000") ("00011") ("dhash") =
      Except.ok ⟨false, 3/5, 0, ("dhash"), some ⟨2, [3, 4], Severity.high⟩⟩ := by
    have h2 : calculateHammingDistance ("00000") ("00011") = Except.ok 2 := by decide
    rw [compareHashes, if_neg (by decide : ¬ (("00000" : String) = "00011")), h2]
    have hp : diffPositions ("00000") ("00011") = [3, 4] := by decide
    have hl : ((("00000" : String).length : ℕ) : ℚ) = 5 := by norm_num [String.length]
    simp only [hp, hl]
    norm_num
  exact ⟨hcmp1, hcmp2,
    compareHashes_severity_thresholds ("00000") ("00001") ("dhash") _ _ hcmp1 rfl⟩

/-- C4: `compareHashes` on bit-strings of unequal length fails with the
length-mismatch error (no comparison result of any kind is produced). -/
theorem compareHashes_length_mismatch (hash1 hash2 : String) (algorithm : String)
    (h : hash1.length ≠ hash2.length) :
    compareHashes hash1 hash2 algorithm = Except.error HashError.lengthMismatch := by
  have hne : hash1 ≠ hash2 := fun he => h (by rw [he])
  unfold compareHashes calculateHammingDistance
  rw [if_neg hne, if_pos h]

set_option maxRecDepth 4000 in
/-- C4 (witness): a length-64 and a length-256 bit-string fail with
`lengthMismatch`. -/
theorem compareHashes_length_mismatch_witness :
    String.length ("0000000000000000000000000000000000000000000000000000000000000000") ≠
      String.length ("0000000000000000000000000000000000000000000000000000000000000000000000000000000000000000000000000000000000000000000000000000000000000000000000000000000000000000000000000000000000000000000000000000000000000000000000000000000000000000000000000000000000000000") ∧
    compareHashes ("0000000000000000000000000000000000000000000000000000000000000000")
      ("0000000000000000000000000000000000000000000000000000000000000000000000000000000000000000000000000000000000000000000000000000000000000000000000000000000000000000000000000000000000000000000000000000000000000000000000000000000000000000000000000000000000000000")
      ("dhash") = Except.error HashError.lengthMismatch := by
  refine ⟨by decide, compareHashes_length_mismatch _ _ _ (by decide)⟩

/-! ## Controller step lemmas (shared by claims C1, C6, C7) -/

theorem tier3Step_hit {Image : Type} (env : Env Image) (img1 img2 : Image)
    (opts : MultiLevelHashOptions) (t : TierConfig) (r : HashComparison)
    (h3 : opts.level3 = some t) (hr : runTier env img1 img2 t = Except.ok r)
    (hth : t.threshold ≤ r.similarity) :
    tier3Step env img1 img2 opts = Except.ok ⟨3, r, false, 0⟩ ∧
    ∀ tr, tier3StepTraced env img1 img2 opts tr = (Except.ok ⟨3, r, false, 0⟩, tr ++ [3]) := by
  constructor
  · simp only [tier3Step, h3, hr, if_pos hth]
  · intro tr
    simp only [tier3StepTraced, h3, hr, if_pos hth]

theorem tier3Step_miss {Image : Type} (env : Env Image) (img1 img2 : Image)
    (opts : MultiLevelHashOptions) (hmiss : tierMiss env img1 img2 opts.level3) :
    tier3Step env img1 img2 opts = Except.ok (tier4Step opts) ∧
    ∀ tr, tier3StepTraced env img1 img2 opts tr =
      (Except.ok (tier4Step opts), tr ++ tierTraceOf opts.level3 3) := by
  cases h3 : opts.level3 with
  | none =>
    refine ⟨by simp only [tier3Step, h3], fun tr => ?_⟩
    simp only [tier3StepTraced, h3, tierTraceOf, List.append_nil]
  | some t =>
    obtain ⟨r, hr, hlt⟩ := hmiss t h3
    refine ⟨?_, fun tr => ?_⟩
    · simp only [tier3Step, h3, hr, if_neg (not_le.mpr hlt)]
    · simp only [tier3StepTraced, h3, hr, if_neg (not_le.mpr hlt), tierTraceOf]

theorem tier3Step_err {Image : Type} (env : Env Image) (img1 img2 : Image)
    (opts : MultiLevelHashOptions) (t : TierConfig) (e : HashError)
    (h3 : opts.level3 = some t) (hr : runTier env img1 img2 t = Except.error e) :
    tier3Step env img1 img2 opts = Except.error e ∧
    ∀ tr, tier3StepTraced env img1 img2 opts tr = (Except.error e, tr ++ [3]) := by
  refine ⟨?_, fun tr => ?_⟩
  · simp only [tier3Step, h3, hr]
  · simp only [tier3StepTraced, h3, hr]

theorem tier2Step_hit {Image : Type} (env : Env Image) (img1 img2 : Image)
    (opts : MultiLevelHashOptions) (t : TierConfig) (r : HashComparison)
    (h2 : opts.level2 = some t) (hr : runTier env img1 img2 t = Except.ok r)
    (hth : t.threshold ≤ r.similarity) :
    tier2Step env img1 img2 opts = Except.ok ⟨2, r, false, 0⟩ ∧
    ∀ tr, tier2StepTraced env img1 img2 opts tr = (Except.ok ⟨2, r, false, 0⟩, tr ++ [2]) := by
  refine ⟨?_, fun tr => ?_⟩
  · simp only [tier2Step, h2, hr, if_pos hth]
  · simp only [tier2StepTraced, h2, hr, if_pos hth]

theorem tier2Step_miss {Image : Type} (env : Env Image) (img1 img2 : Image)
    (opts : MultiLevelHashOptions) (hmiss : tierMiss env img1 img2 opts.level2) :
    tier2Step env img1 img2 opts = tier3Step env img1 img2 opts ∧
    ∀ tr, tier2StepTraced env img1 img2 opts tr =
      tier3StepTraced env img1 img2 opts (tr ++ tierTraceOf opts.level2 2) := by
  cases h2 : opts.level2 with
  | none =>
    refine ⟨by simp only [tier2Step, h2], fun tr => ?_⟩
    simp only [tier2StepTraced, h2, tierTraceOf, List.append_nil]
  | some t =>
    obtain ⟨r, hr, hlt⟩ := hmiss t h2
    refine ⟨?_, fun tr => ?_⟩
    · simp only [tier2Step, h2, hr, if_neg (not_le.mpr hlt)]
    · simp only [tier2StepTraced, h2, hr, if_neg (not_le.mpr hlt), tierTraceOf]

theorem tier2Step_err {Image : Type} (env : Env Image) (img1 img2 : Image)
    (opts : MultiLevelHashOptions) (t : TierConfig) (e : HashError)
    (h2 : opts.level2 = some t) (hr : runTier env img1 img2 t = Except.error e) :
    tier2Step env img1 img2 opts = Except.error e ∧
    ∀ tr, tier2StepTraced env img1 img2 opts tr = (Except.error e, tr ++ [2]) := by
  refine ⟨?_, fun tr => ?_⟩
  · simp only [tier2Step, h2, hr]
  · simp only [tier2StepTraced, h2, hr]

theorem progressiveCompare_hit1 {Image : Type} (env : Env Image) (img1 img2 : Image)
    (opts : MultiLevelHashOptions) (t : TierConfig) (r : HashComparison)
    (h1 : opts.level1 = some t) (hr : runTier env img1 img2 t = Except.ok r)
    (hth : t.threshold ≤ r.similarity) :
    progressiveCompare env img1 img2 opts = Except.ok ⟨1, r, false, 0⟩ ∧
    progressiveCompareTraced env img1 img2 opts = (Except.ok ⟨1, r, false, 0⟩, [1]) := by
  refine ⟨?_, ?_⟩
  · simp only [progressiveCompare, h1, hr, if_pos hth]
  · simp only [progressiveCompareTraced, h1, hr, if_pos hth]

theorem progressiveCompare_miss1 {Image : Type} (env : Env Image) (img1 img2 : Image)
    (opts : MultiLevelHashOptions) (hmiss : tierMiss env img1 img2 opts.level1) :
    progressiveCompare env img1 img2 opts = tier2Step env img1 img2 opts ∧
    progressiveCompareTraced env img1 img2 opts =
      tier2StepTraced env img1 img2 opts (tierTraceOf opts.level1 1) := by
  cases h1 : opts.level1 with
  | none =>
    exact ⟨by simp only [progressiveCompare, h1],
      by simp only [progressiveCompareTraced, h1, tierTraceOf]⟩
  | some t =>
    obtain ⟨r, hr, hlt⟩ := hmiss t h1
    refine ⟨?_, ?_⟩
    · simp only [progressiveCompare, h1, hr, if_neg (not_le.mpr hlt)]
    · simp only [progressiveCompareTraced, h1, hr, if_neg (not_le.mpr hlt), tierTraceOf]

theorem progressiveCompare_err1 {Image : Type} (env : Env Image) (img1 img2 : Image)
    (opts : MultiLevelHashOptions) (t : TierConfig) (e : HashError)
    (h1 : opts.level1 = some t) (hr : runTier env img1 img2 t = Except.error e) :
    progressiveCompare env img1 img2 opts = Except.error e ∧
    progressiveCompareTraced env img1 img2 opts = (Except.error e, [1]) := by
  refine ⟨?_, ?_⟩
  · simp only [progressiveCompare, h1, hr]
  · simp only [progressiveCompareTraced, h1, hr]

/-! ## Claims C1, C6, C7 -/

/-- C1: tiers 1–3 are evaluated in configured order and the call returns at
the first tier whose similarity reaches its threshold (the `>=` boundary is
inclusive) with `level` equal to that tier and `shouldContinue = false`; the
instrumented trace shows that exactly the configured tiers up to and
including the satisfied one ran their kernels and encoder — no later tier
executes. -/
theorem progressiveCompare_first_tier_wins {Image : Type} (env : Env Image)
    (img1 img2 : Image) (opts : MultiLevelHashOptions) :
    (∀ t r, opts.level1 = some t → runTier env img1 img2 t = Except.ok r →
      t.threshold ≤ r.similarity →
      progressiveCompare env img1 img2 opts = Except.ok ⟨1, r, false, 0⟩ ∧
      (progressiveCompareTraced env img1 img2 opts).2 = [1]) ∧
    (∀ t r, tierMiss env img1 img2 opts.level1 → opts.level2 = some t →
      runTier env img1 img2 t = Except.ok r → t.threshold ≤ r.similarity →
      progressiveCompare env img1 img2 opts = Except.ok ⟨2, r, false, 0⟩ ∧
      (progressiveCompareTraced env img1 img2 opts).2 = tierTraceOf opts.level1 1 ++ [2]) ∧
    (∀ t r, tierMiss env img1 img2 opts.level1 → tierMiss env img1 img2 opts.level2 →
      opts.level3 = some t → runTier env img1 img2 t = Except.ok r →
      t.threshold ≤ r.similarity →
      progressiveCompare env img1 img2 opts = Except.ok ⟨3, r, false, 0⟩ ∧
      (progressiveCompareTraced env img1 img2 opts).2 =
        tierTraceOf opts.level1 1 ++ tierTraceOf opts.level2 2 ++ [3]) := by
  refine ⟨?_, ?_, ?_⟩
  · intro t r h1 hr hth
    obtain ⟨hp, hpt⟩ := progressiveCompare_hit1 env img1 img2 opts t r h1 hr hth
    exact ⟨hp, by rw [hpt]⟩
  · intro t r hm1 h2 hr hth
    obtain ⟨hp1, hpt1⟩ := progressiveCompare_miss1 env img1 img2 opts hm1
    obtain ⟨hs2, hst2⟩ := tier2Step_hit env img1 img2 opts t r h2 hr hth
    exact ⟨hp1.trans hs2, by rw [hpt1, hst2]⟩
  · intro t r hm1 hm2 h3 hr hth
    obtain ⟨hp1, hpt1⟩ := progressiveCompare_miss1 env img1 img2 opts hm1
    obtain ⟨hs2, hst2⟩ := tier2Step_miss env img1 img2 opts hm2
    obtain ⟨hs3, hst3⟩ := tier3Step_hit env img1 img2 opts t r h3 hr hth
    exact ⟨(hp1.trans hs2).trans hs3, by rw [hpt1, hst2, hst3]⟩

/-- C6: when every configured tier 1–3 runs but stays below its threshold and
level 4 is enabled, the outcome is `level = 4`, `shouldContinue = true`, with
the fixed placeholder result (`identical = false`, `similarity = 0`,
`algorithm = 'semantic'`, severity `high`); the trace contains only the
configured tiers 1–3 — the core runs no semantic-analysis computation of its
own. -/
theorem progressiveCompare_level4_handoff {Image : Type} (env : Env Image)
    (img1 img2 : Image) (opts : MultiLevelHashOptions) (l4 : Level4Config)
    (hm1 : tierMiss env img1 img2 opts.level1)
    (hm2 : tierMiss env img1 img2 opts.level2)
    (hm3 : tierMiss env img1 img2 opts.level3)
    (h4 : opts.level4 = some l4) (hen : l4.enabled = true) :
    progressiveCompare env img1 img2 opts =
      Except.ok ⟨4, ⟨false, 0, 0, ("semantic"), some ⟨0, [], Severity.high⟩⟩, true, 0⟩ ∧
    (progressiveCompareTraced env img1 img2 opts).2 =
      tierTraceOf opts.level1 1 ++ tierTraceOf opts.level2 2 ++ tierTraceOf opts.level3 3 := by
  have h4s : tier4Step opts = ⟨4, ⟨false, 0, 0, ("semantic"), some ⟨0, [], Severity.high⟩⟩, true, 0⟩ := by
    simp only [tier4Step, h4, hen, if_pos, semanticPlaceholder]
  obtain ⟨hp1, hpt1⟩ := progressiveCompare_miss1 env img1 img2 opts hm1
  obtain ⟨hs2, hst2⟩ := tier2Step_miss env img1 img2 opts hm2
  obtain ⟨hs3, hst3⟩ := tier3Step_miss env img1 img2 opts hm3
  refine ⟨((hp1.trans hs2).trans hs3).trans (by rw [h4s]), ?_⟩
  rw [hpt1, hst2, hst3]

/-- C7: an unrecognized algorithm identifier makes `generateHash` fail with
`unknownAlgorithm`, and when the escalation reaches a tier naming an unknown
algorithm the whole `progressiveCompare` call aborts with that error — the
tier is not skipped and no later tier executes (the trace stops at the
offending tier). -/
theorem unknownAlgorithm_aborts {Image : Type} (env : Env Image) :
    (∀ (img : Image) algorithm size, algorithm ∉ validAlgorithms →
      generateHash env img algorithm size =
        Except.error (HashError.unknownAlgorithm algorithm)) ∧
    (∀ (img1 img2 : Image) opts t, opts.level1 = some t →
      t.algorithm ∉ validAlgorithms →
      progressiveCompare env img1 img2 opts =
        Except.error (HashError.unknownAlgorithm t.algorithm) ∧
      (progressiveCompareTraced env img1 img2 opts).2 = [1]) ∧
    (∀ (img1 img2 : Image) opts t, tierMiss env img1 img2 opts.level1 →
      opts.level2 = some t → t.algorithm ∉ validAlgorithms →
      progressiveCompare env img1 img2 opts =
        Except.error (HashError.unknownAlgorithm t.algorithm) ∧
      (progressiveCompareTraced env img1 img2 opts).2 = tierTraceOf opts.level1 1 ++ [2]) ∧
    (∀ (img1 img2 : Image) opts t, tierMiss env img1 img2 opts.level1 →
      tierMiss env img1 img2 opts.level2 → opts.level3 = some t →
      t.algorithm ∉ validAlgorithms →
      progressiveCompare env img1 img2 opts =
        Except.error (HashError.unknownAlgorithm t.algorithm) ∧
      (progressiveCompareTraced env img1 img2 opts).2 =
        tierTraceOf opts.level1 1 ++ tierTraceOf opts.level2 2 ++ [3]) := by
  have hgen : ∀ (img : Image) algorithm size, algorithm ∉ validAlgorithms →
      generateHash env img algorithm size =
        Except.error (HashError.unknownAlgorithm algorithm) := by
    intro img algorithm size h
    simp only [validAlgorithms, List.mem_cons, List.not_mem_nil, or_false, not_or] at h
    obtain ⟨e1, e2, e3, e4, e5, e6, e7, e8, e9⟩ := h
    rw [generateHash, if_neg e1, if_neg e2, if_neg e3, if_neg e4, if_neg e5,
      if_neg e6, if_neg e7, if_neg e8, if_neg e9]
  have hrun : ∀ (img1 img2 : Image) t, t.algorithm ∉ validAlgorithms →
      runTier env img1 img2 t =
        Except.error (HashError.unknownAlgorithm t.algorithm) := by
    intro img1 img2 t h
    unfold runTier
    rw [hgen img1 t.algorithm t.size h]
  refine ⟨hgen, ?_, ?_, ?_⟩
  · intro img1 img2 opts t h1 h
    exact progressiveCompare_err1 env img1 img2 opts t _ h1 (hrun img1 img2 t h) |>.imp
      id (fun hpt => by rw [hpt])
  · intro img1 img2 opts t hm1 h2 h
    obtain ⟨hp1, hpt1⟩ := progressiveCompare_miss1 env img1 img2 opts hm1
    obtain ⟨hs2, hst2⟩ := tier2Step_err env img1 img2 opts t _ h2 (hrun img1 img2 t h)
    exact ⟨hp1.trans hs2, by rw [hpt1, hst2]⟩
  · intro img1 img2 opts t hm1 hm2 h3 h
    obtain ⟨hp1, hpt1⟩ := progressiveCompare_miss1 env img1 img2 opts hm1
    obtain ⟨hs2, hst2⟩ := tier2Step_miss env img1 img2 opts hm2
    obtain ⟨hs3, hst3⟩ := tier3Step_err env img1 img2 opts t _ h3 (hrun img1 img2 t h)
    exact ⟨(hp1.trans hs2).trans hs3, by rw [hpt1, hst2, hst3]⟩

/-! ## Concrete evaluations over `testEnv` (shared by the witnesses) -/

theorem generateHash_testEnv_avg_false : generateHash testEnv false ("average") 2 =
    Except.ok ⟨("0000"), ("average"), 0, 1, [(("size"), MetaVal.natVal 2)]⟩ := by
  have ha : averageHash testEnv false 2 = "0000" := by
    unfold averageHash
    have h0 : testEnv.resizeGray false 2 2 = [0, 0, 0, 0] := rfl
    rw [h0]
    unfold averageHashPixels
    norm_num [bitsToString]
  simp only [generateHash, reduceIte, ha]

theorem generateHash_testEnv_avg_true : generateHash testEnv true ("average") 2 =
    Except.ok ⟨("0001"), ("average"), 0, 1, [(("size"), MetaVal.natVal 2)]⟩ := by
  have ha : averageHash testEnv true 2 = "0001" := by
    unfold averageHash
    have h0 : testEnv.resizeGray true 2 2 = [0, 0, 0, 4] := rfl
    rw [h0]
    unfold averageHashPixels
    norm_num [bitsToString]
  simp only [generateHash, reduceIte, ha]

theorem compareHashes_0000_eq : compareHashes ("0000") ("0000") ("average") =
    Except.ok ⟨true, 1, 0, ("average"), none⟩ := by
  rw [compareHashes, if_pos rfl]

theorem compareHashes_0000_0001 : compareHashes ("0000") ("0001") ("average") =
    Except.ok ⟨false, 3/4, 0, ("average"), some ⟨1, [3], Severity.medium⟩⟩ := by
  have h1 : calculateHammingDistance ("0000") ("0001") = Except.ok 1 := by decide
  rw [compareHashes, if_neg (by decide : ¬ (("0000" : String) = "0001")), h1]
  have hp : diffPositions ("0000") ("0001") = [3] := by decide
  have hl : ((("0000" : String).length : ℕ) : ℚ) = 4 := by norm_num [String.length]
  simp only [hp, hl]
  norm_num

theorem runTier_testEnv_avg_ff (th : ℚ) : runTier testEnv false false ⟨("average"), 2, th⟩ =
    Except.ok ⟨true, 1, 0, ("average"), none⟩ := by
  unfold runTier
  rw [generateHash_testEnv_avg_false]
  exact compareHashes_0000_eq

theorem runTier_testEnv_avg_ft (th : ℚ) : runTier testEnv false true ⟨("average"), 2, th⟩ =
    Except.ok ⟨false, 3/4, 0, ("average"), some ⟨1, [3], Severity.medium⟩⟩ := by
  unfold runTier
  rw [generateHash_testEnv_avg_false, generateHash_testEnv_avg_true]
  exact compareHashes_0000_0001

/-- Tier-1 miss over `testEnv` for the strict threshold `0.95`: the two
images compare at similarity `3/4`. -/
theorem tierMiss_testEnv_avg095 :
    tierMiss testEnv false true (some ⟨("average"), 2, 0.95⟩) := by
  intro t ht
  injection ht with ht
  subst ht
  exact ⟨_, runTier_testEnv_avg_ft _, by norm_num⟩

/-- An unconfigured tier misses vacuously. -/
theorem tierMiss_none {Image : Type} (env : Env Image) (img1 img2 : Image) :
    tierMiss env img1 img2 none :=
  fun _ ht => Option.noConfusion ht

/-- C1 (witness): over `testEnv`, (a) identical images satisfy tier 1
(`threshold 0.95`, similarity 1) and the call returns `level 1` without
running the later tiers — whose algorithms are the bogus name `"bogus"` and
would error if executed; (b) with tier 1 missing its threshold, tier 2
(threshold 0) wins with `level 2` and trace `[1, 2]`; (c) with tier 2
unconfigured, tier 3 wins with `level 3` and trace `[1, 3]`. -/
theorem progressiveCompare_first_tier_wins_witness :
    (progressiveCompare testEnv false false
        ⟨some ⟨("average"), 2, 0.95⟩, some ⟨("bogus"), 8, 0.5⟩, some ⟨("bogus"), 8, 0.5⟩,
          some ⟨true, none, 0.8⟩⟩ =
      Except.ok ⟨1, ⟨true, 1, 0, ("average"), none⟩, false, 0⟩ ∧
     (progressiveCompareTraced testEnv false false
        ⟨some ⟨("average"), 2, 0.95⟩, some ⟨("bogus"), 8, 0.5⟩, some ⟨("bogus"), 8, 0.5⟩,
          some ⟨true, none, 0.8⟩⟩).2 = [1]) ∧
    (progressiveCompare testEnv false true
        ⟨some ⟨("average"), 2, 0.95⟩, some ⟨("average"), 2, 0⟩, some ⟨("bogus"), 8, 0.5⟩,
          none⟩ =
      Except.ok ⟨2, ⟨false, 3/4, 0, ("average"), some ⟨1, [3], Severity.medium⟩⟩, false, 0⟩ ∧
     (progressiveCompareTraced testEnv false true
        ⟨some ⟨("average"), 2, 0.95⟩, some ⟨("average"), 2, 0⟩, some ⟨("bogus"), 8, 0.5⟩,
          none⟩).2 = [1, 2]) ∧
    (progressiveCompare testEnv false true
        ⟨some ⟨("average"), 2, 0.95⟩, none, some ⟨("average"), 2, 0⟩,
          some ⟨true, none, 0.8⟩⟩ =
      Except.ok ⟨3, ⟨false, 3/4, 0, ("average"), some ⟨1, [3], Severity.medium⟩⟩, false, 0⟩ ∧
     (progressiveCompareTraced testEnv false true
        ⟨some ⟨("average"), 2, 0.95⟩, none, some ⟨("average"), 2, 0⟩,
          some ⟨true, none, 0.8⟩⟩).2 = [1, 3]) := by
  refine ⟨?_, ?_, ?_⟩
  · exact (progressiveCompare_first_tier_wins testEnv false false _).1
      ⟨("average"), 2, 0.95⟩ ⟨true, 1, 0, ("average"), none⟩ rfl
      (runTier_testEnv_avg_ff 0.95) (by norm_num)
  · exact (progressiveCompare_first_tier_wins testEnv false true _).2.1
      ⟨("average"), 2, 0⟩ ⟨false, 3/4, 0, ("average"), some ⟨1, [3], Severity.medium⟩⟩
      tierMiss_testEnv_avg095 rfl (runTier_testEnv_avg_ft 0) (by norm_num)
  · exact (progressiveCompare_first_tier_wins testEnv false true _).2.2
      ⟨("average"), 2, 0⟩ ⟨false, 3/4, 0, ("average"), some ⟨1, [3], Severity.medium⟩⟩
      tierMiss_testEnv_avg095 (tierMiss_none testEnv false true) rfl
      (runTier_testEnv_avg_ft 0) (by norm_num)

/-- C6 (witness): over `testEnv`, with only tier 1 configured (threshold
`0.95`, similarity `3/4`) and level 4 enabled, the call hands off with the
placeholder result and `shouldContinue = true`; the trace shows only tier 1
ran. -/
theorem progressiveCompare_level4_handoff_witness :
    progressiveCompare testEnv false true
        ⟨some ⟨("average"), 2, 0.95⟩, none, none, some ⟨true, some ("endpoint"), 0.8⟩⟩ =
      Except.ok ⟨4, ⟨false, 0, 0, ("semantic"), some ⟨0, [], Severity.high⟩⟩, true, 0⟩ ∧
    (progressiveCompareTraced testEnv false true
        ⟨some ⟨("average"), 2, 0.95⟩, none, none, some ⟨true, some ("endpoint"), 0.8⟩⟩).2 =
      [1] :=
  progressiveCompare_level4_handoff testEnv false true _ ⟨true, some ("endpoint"), 0.8⟩
    tierMiss_testEnv_avg095 (tierMiss_none testEnv false true)
    (tierMiss_none testEnv false true) rfl rfl

/-- C7 (witness): `generateHash` on the unknown name `"bogus"` errors, and a
tier naming `"bogus"` — at level 1, at level 2 after a tier-1 miss, and at
level 3 after misses — aborts the whole escalation with `unknownAlgorithm`,
the trace stopping at the offending tier. -/
theorem unknownAlgorithm_aborts_witness :
    (generateHash testEnv false ("bogus") 8 =
      Except.error (HashError.unknownAlgorithm ("bogus"))) ∧
    (progressiveCompare testEnv false true
        ⟨some ⟨("bogus"), 8, 0.5⟩, some ⟨("average"), 2, 0⟩, none, none⟩ =
      Except.error (HashError.unknownAlgorithm ("bogus")) ∧
     (progressiveCompareTraced testEnv false true
        ⟨some ⟨("bogus"), 8, 0.5⟩, some ⟨("average"), 2, 0⟩, none, none⟩).2 = [1]) ∧
    (progressiveCompare testEnv false true
        ⟨some ⟨("average"), 2, 0.95⟩, some ⟨("bogus"), 8, 0.5⟩, none, none⟩ =
      Except.error (HashError.unknownAlgorithm ("bogus")) ∧
     (progressiveCompareTraced testEnv false true
        ⟨some ⟨("average"), 2, 0.95⟩, some ⟨("bogus"), 8, 0.5⟩, none, none⟩).2 = [1, 2]) ∧
    (progressiveCompare testEnv false true
        ⟨some ⟨("average"), 2, 0.95⟩, none, some ⟨("bogus"), 8, 0.5⟩,
          some ⟨true, none, 0.8⟩⟩ =
      Except.error (HashError.unknownAlgorithm ("bogus")) ∧
     (progressiveCompareTraced testEnv false true
        ⟨some ⟨("average"), 2, 0.95⟩, none, some ⟨("bogus"), 8, 0.5⟩,
          some ⟨true, none, 0.8⟩⟩).2 = [1, 3]) := by
  refine ⟨?_, ?_, ?_, ?_⟩
  · exact (unknownAlgorithm_aborts testEnv).1 false ("bogus") 8 (by decide)
  · exact (unknownAlgorithm_aborts testEnv).2.1 false true _ ⟨("bogus"), 8, 0.5⟩ rfl (by decide)
  · exact (unknownAlgorithm_aborts testEnv).2.2.1 false true _ ⟨("bogus"), 8, 0.5⟩
      tierMiss_testEnv_avg095 rfl (by decide)
  · exact (unknownAlgorithm_aborts testEnv).2.2.2 false true _ ⟨("bogus"), 8, 0.5⟩
      tierMiss_testEnv_avg095 (tierMiss_none testEnv false true) rfl (by decide)

/-! ## Claim C5: the block encoder's threshold -/

/-- Element `(i, j)` of a row-major double loop. -/
theorem grid_getD {α : Type} (d : α) (f : ℕ → ℕ → α) (n m i j : ℕ)
    (hi : i < n) (hj : j < m) :
    (((List.range n).flatMap fun a => (List.range m).map fun b => f a b).getD (i * m + j) d) =
      f i j := by
  induction n generalizing i with
  | zero => omega
  | succ n ih =>
    rw [List.range_succ, List.flatMap_append]
    rcases Nat.lt_succ_iff_lt_or_eq.mp hi with hi' | hi'
    · rw [List.getD_append]
      · exact ih i hi'
      · rw [length_grid n m f]
        calc i * m + j < i * m + m := by omega
          _ = (i + 1) * m := by ring
          _ ≤ n * m := Nat.mul_le_mul_right m hi'
    · subst hi'
      have hlen : ((List.range i).flatMap fun a => (List.range m).map fun b => f a b).length =
          i * m := length_grid i m f
      rw [List.getD_append_right _ _ _ _ (by rw [hlen]; exact Nat.le_add_right _ _), hlen]
      have hidx : i * m + j - i * m = j := by omega
      rw [hidx]
      simp only [List.flatMap_cons, List.flatMap_nil, List.append_nil]
      rw [List.getD_eq_getElem _ _ (by simpa using hj)]
      simp

/-- Modelled from the spec: the hash-encoder policy §4.2 ascribes to the
block algorithm — block-mean coefficients thresholded strictly against the
*global mean* of the coefficient sequence.  Defined only to be compared
against the source's `blockHashPixels`, which thresholds against the
constant `128`. -/
def blockHashMeanPolicy (pixels : List ℕ) (size : ℕ) : String :=
  let coeffs := (List.range size).flatMap fun yb => (List.range size).map fun xb =>
    blockMean pixels size yb xb
  let mean := coeffs.sum / ((coeffs.length : ℕ) : ℚ)
  bitsToString (coeffs.map fun c => decide (mean < c))

/-- C5 (counterexample): on a uniform all-200 sample grid at size 1, the
source's block hash emits `"1"` (block mean 200 exceeds the constant 128),
while the spec's threshold-against-global-mean policy would emit `"0"`
(the single coefficient 200 is not strictly greater than the global mean
200) — so the block encoder does not use the mean-statistic policy. -/
theorem blockHash_not_mean_policy :
    blockHashPixels (List.replicate 16 200) 1 = ("1") ∧
    blockHashMeanPolicy (List.replicate 16 200) 1 = ("0") := by
  have hsum : ((List.range 4).flatMap fun y => (List.range 4).map fun x =>
      (List.replicate 16 200).getD ((0 * 4 + y) * (1 * 4) + (0 * 4 + x)) 0).sum = 3200 := by
    decide
  have hm : blockMean (List.replicate 16 200) 1 0 0 = 200 := by
    unfold blockMean
    rw [hsum]
    norm_num
  constructor
  · have hc1 : ((List.range 1).flatMap fun yb => (List.range 1).map fun xb =>
        decide ((128 : ℚ) < blockMean (List.replicate 16 200) 1 yb xb)) = [true] := by
      rw [show List.range 1 = [0] from rfl]
      simp only [List.flatMap_cons, List.flatMap_nil, List.map_cons, List.map_nil,
        List.append_nil, hm]
      norm_num
    unfold blockHashPixels
    rw [hc1]
    rfl
  · have hc : ((List.range 1).flatMap fun yb => (List.range 1).map fun xb =>
        blockMean (List.replicate 16 200) 1 yb xb) = [200] := by
      rw [show List.range 1 = [0] from rfl]
      simp only [List.flatMap_cons, List.flatMap_nil, List.map_cons, List.map_nil,
        List.append_nil, hm]
    unfold blockHashMeanPolicy
    rw [hc]
    norm_num [bitsToString]

/-- `getD` commutes with `map` at an in-range index, for any defaults. -/
theorem getD_map_of_lt {α β : Type} (g : α → β) (l : List α) (k : ℕ) (d : α) (e : β)
    (h : k < l.length) : (l.map g).getD k e = g (l.getD k d) := by
  rw [List.getD_eq_getElem (l.map g) e (by simpa using h), List.getElem_map,
    List.getD_eq_getElem l d h]

/-- C5 (amended): the block algorithm's encoder thresholds each 4×4-block
mean against the fixed constant 128 (bit `1` exactly when strictly greater),
not against the global mean of the coefficient sequence; the global-mean
policy is the one used by the average algorithm, whose bit `i` is `1` exactly
when sample `i` strictly exceeds the global sample mean. -/
theorem blockHash_const128_threshold (pixels : List ℕ) (n yb xb : ℕ)
    (hy : yb < n) (hx : xb < n) :
    ((blockHashPixels pixels n).data.getD (yb * n + xb) ' ' =
      if (128 : ℚ) < blockMean pixels n yb xb then '1' else '0') ∧
    (∀ (p : List ℕ) (i : ℕ), i < p.length →
      (averageHashPixels p).data.getD i ' ' =
        if ((p.sum : ℕ) : ℚ) / ((p.length : ℕ) : ℚ) < ((p.getD i 0 : ℕ) : ℚ)
        then '1' else '0') := by
  constructor
  · have hidx : yb * n + xb < n * n := by
      calc yb * n + xb < yb * n + n := by omega
        _ = (yb + 1) * n := by ring
        _ ≤ n * n := Nat.mul_le_mul_right n hy
    have hblen : ((List.range n).flatMap fun a => (List.range n).map fun b =>
        decide ((128 : ℚ) < blockMean pixels n a b)).length = n * n :=
      length_grid n n _
    unfold blockHashPixels bitsToString
    rw [show (String.mk (((List.range n).flatMap fun a => (List.range n).map fun b =>
        decide ((128 : ℚ) < blockMean pixels n a b)).map
          fun b => if b then '1' else '0')).data =
      ((List.range n).flatMap fun a => (List.range n).map fun b =>
        decide ((128 : ℚ) < blockMean pixels n a b)).map
          fun b => if b then '1' else '0' from rfl]
    rw [getD_map_of_lt _ _ _ false _ (by rw [hblen]; exact hidx)]
    rw [grid_getD false (fun a b => decide ((128 : ℚ) < blockMean pixels n a b)) n n yb xb hy hx]
    by_cases h : (128 : ℚ) < blockMean pixels n yb xb <;> simp [h]
  · intro p i hip
    unfold averageHashPixels bitsToString
    rw [show (String.mk ((p.map fun (q : ℕ) => decide (((p.sum : ℕ) : ℚ) / ((p.length : ℕ) : ℚ) < (q : ℚ))).map
        fun b => if b then '1' else '0')).data =
      (p.map fun (q : ℕ) => decide (((p.sum : ℕ) : ℚ) / ((p.length : ℕ) : ℚ) < (q : ℚ))).map
        fun b => if b then '1' else '0' from rfl]
    rw [getD_map_of_lt _ _ _ false _ (by simpa using hip)]
    rw [getD_map_of_lt _ _ _ 0 _ hip]
    by_cases h : ((p.sum : ℕ) : ℚ) / ((p.length : ℕ) : ℚ) < ((p.getD i 0 : ℕ) : ℚ) <;>
      simp [h]

/-- C5 (witness): the amended block-threshold theorem applied at the all-200
grid, size 1, block `(0,0)`: the stored bit is `'1'` since the block mean 200
strictly exceeds 128. -/
theorem blockHash_const128_threshold_witness :
    ((blockHashPixels (List.replicate 16 200) 1).data.getD (0 * 1 + 0) ' ' =
      if (128 : ℚ) < blockMean (List.replicate 16 200) 1 0 0 then '1' else '0') ∧
    (∀ (p : List ℕ) (i : ℕ), i < p.length →
      (averageHashPixels p).data.getD i ' ' =
        if ((p.sum : ℕ) : ℚ) / ((p.length : ℕ) : ℚ) < ((p.getD i 0 : ℕ) : ℚ)
        then '1' else '0') :=
  blockHash_const128_threshold (List.replicate 16 200) 1 0 0 (by decide) (by decide)

/-! ## Claim C8: kernels perform no input validation -/

/-- C8 (counterexample): the average transform kernel given an *empty* pixel
buffer does not fail with any error — it returns the empty hash `""` computed
from the zero samples present.  There is no `InvalidInput` validation in any
kernel; decode-time failures arise only in the external `sharp` pipeline,
outside the kernels. -/
theorem averageHash_empty_buffer_no_error :
    averageHashPixels [] = ("") := by
  rfl

/-- C8 (amended): the transform kernels do not validate their input: the
average kernel hashes exactly the samples present — its output length always
equals the buffer length (whatever grid the requested size would demand), and
an undersized two-sample buffer still yields a two-bit hash computed from
those samples (mean `7.5`, bits `0` and `1`). -/
theorem averageHash_no_validation :
    (∀ pixels : List ℕ, (averageHashPixels pixels).length = pixels.length) ∧
    averageHashPixels [5, 10] = ("01") := by
  refine ⟨averageHashPixels_length, ?_⟩
  unfold averageHashPixels
  norm_num [bitsToString]

/-! ## Claim C9: hash lengths are a function of algorithm and size -/

/-- C9: for every recognized algorithm the produced bit-string's length is
the fixed function `hashLength` of the algorithm and the sampling size alone
— in particular `(n−2)²` for structural and gradient and `3` for
colorhistogram — so the two images of a comparison always receive
equal-length hashes at the same tier. -/
theorem generateHash_length_fixed {Image : Type} (env : Env Image)
    (img img2 : Image) (algorithm : String) (n : ℕ)
    (h : algorithm ∈ validAlgorithms) :
    (∃ r, generateHash env img algorithm n = Except.ok r ∧
      r.hash.length = hashLength algorithm n) ∧
    hashLength ("structural") n = (n - 2) * (n - 2) ∧
    hashLength ("gradient") n = (n - 2) * (n - 2) ∧
    hashLength ("colorhistogram") n = 3 ∧
    (∃ r1 r2, generateHash env img algorithm n = Except.ok r1 ∧
      generateHash env img2 algorithm n = Except.ok r2 ∧
      r1.hash.length = r2.hash.length) := by
  obtain ⟨r1, hr1, hl1⟩ := generateHash_length env img algorithm n h
  obtain ⟨r2, hr2, hl2⟩ := generateHash_length env img2 algorithm n h
  exact ⟨⟨r1, hr1, hl1⟩, rfl, rfl, rfl, r1, r2, hr1, hr2, hl1.trans hl2.symm⟩

/-- C9 (witness): the length theorem applied over `testEnv` to the
structural algorithm at size 5 (producing `(5−2)² = 9` bits) for the two
test images. -/
theorem generateHash_length_fixed_witness :
    (∃ r, generateHash testEnv false ("structural") 5 = Except.ok r ∧
      r.hash.length = hashLength ("structural") 5) ∧
    hashLength ("structural") 5 = (5 - 2) * (5 - 2) ∧
    hashLength ("gradient") 5 = (5 - 2) * (5 - 2) ∧
    hashLength ("colorhistogram") 5 = 3 ∧
    (∃ r1 r2, generateHash testEnv false ("structural") 5 = Except.ok r1 ∧
      generateHash testEnv true ("structural") 5 = Except.ok r2 ∧
      r1.hash.length = r2.hash.length) :=
  generateHash_length_fixed testEnv false true ("structural") 5 (by decide)

/-! ## Claim C10: structural and gradient share the hash, differ in labelling -/

/-- C10 (counterexample): at size 3 over `testEnv`, the structural and
gradient `HashResult`s carry the same hash `"0"` but differ in a field other
than confidence and metadata: the `algorithm` label (`"structural"` vs
`"gradient"`), refuting the claim that the results differ *only* in the
confidence weight and metadata annotations. -/
theorem structural_gradient_label_differs :
    generateHash testEnv false ("structural") 3 =
      Except.ok ⟨("0"), ("structural"), 0, 0.88,
        [(("size"), MetaVal.natVal 3), (("structuralFeatures"), MetaVal.boolVal true)]⟩ ∧
    generateHash testEnv false ("gradient") 3 =
      Except.ok ⟨("0"), ("gradient"), 0, 0.87,
        [(("size"), MetaVal.natVal 3), (("gradientAnalysis"), MetaVal.boolVal true)]⟩ ∧
    (("structural" : String)) ≠ ("gradient") := by
  have hg : calculateGradients testEnv [0, 0, 0, 0, 0, 0, 0, 0, 0] 3 = [0] := by
    unfold calculateGradients
    rw [show List.range (3 - 2) = [0] from rfl]
    simp only [List.flatMap_cons, List.flatMap_nil, List.map_cons, List.map_nil,
      List.append_nil]
    norm_num [List.getD, testEnv]
  have hs : structuralHash testEnv false 3 = "0" := by
    unfold structuralHash
    rw [show testEnv.resizeGray false 3 3 = [0, 0, 0, 0, 0, 0, 0, 0, 0] from rfl]
    unfold structuralHashPixels
    rw [hg]
    norm_num [median, sortAsc, insertAsc, bitsToString]
  have hgr : gradientHash testEnv false 3 = "0" := by
    rw [show gradientHash testEnv false 3 = structuralHash testEnv false 3 from rfl, hs]
  refine ⟨?_, ?_, by decide⟩
  · simp [generateHash, hs]
  · simp [generateHash, hgr]

/-- C10 (amended): for every image and size the structural and gradient
algorithms compute bit-identical hash strings (they share the gradient
kernel and median threshold), and their `HashResult`s agree on the hash and
duration, differing in the confidence weight (0.88 vs 0.87), the `algorithm`
label, and the metadata annotations. -/
theorem structural_gradient_same_hash {Image : Type} (env : Env Image)
    (img : Image) (n : ℕ) :
    structuralHash env img n = gradientHash env img n ∧
    ∃ r1 r2, generateHash env img ("structural") n = Except.ok r1 ∧
      generateHash env img ("gradient") n = Except.ok r2 ∧
      r1.hash = r2.hash ∧
      r1.confidence = 0.88 ∧ r2.confidence = 0.87 ∧
      r1.algorithm = ("structural") ∧ r2.algorithm = ("gradient") ∧
      r1.duration = r2.duration ∧
      r1.metadata = [(("size"), MetaVal.natVal n),
        (("structuralFeatures"), MetaVal.boolVal true)] ∧
      r2.metadata = [(("size"), MetaVal.natVal n),
        (("gradientAnalysis"), MetaVal.boolVal true)] := by
  have hsg : structuralHash env img n = gradientHash env img n := rfl
  exact ⟨hsg, _, _, rfl, rfl, hsg, rfl, rfl, rfl, rfl, rfl, rfl, rfl⟩

end NeuralDiff
